import Mathlib

/-!
Verification of the MostMinimalWebFramework request/response engine.

The repository has two variants of the same engine:
a sequential, socket-based one in most_minimal_web_framework.py and a
coroutine-based one in MostMinimalWebFramework.py.  The request parsing,
routing and dispatch logic is line-for-line the same in both; the response
serializer differs in how it computes Content-Length, and the connection
driver differs in how locals persist between connections.  Both variants
are embedded below.
-/

/-! ## Regular expressions

Route patterns are compiled with re.compile of the Python standard library.
The constructors below cover the regex syntax that path patterns use:
literal characters, the dot (any character except newline), character
classes such as a negated class of a slash, alternation, concatenation and
the Kleene star.  Matching is defined through Brzozowski derivatives; for
these constructors the derivative semantics coincides with the Python
matching semantics (which character positions can be reached from the start
of the string).
-/

inductive Regex where
  | fail
  | eps
  | char (c : Char)
  | anyc
  | cls (neg : Bool) (cs : List Char)
  | alt (r₁ r₂ : Regex)
  | cat (r₁ r₂ : Regex)
  | star (r : Regex)
deriving Repr

/-- Whether the regex accepts the empty string. -/
def Regex.nullable : Regex → Bool
  | .fail => false
  | .eps => true
  | .char _ => false
  | .anyc => false
  | .cls _ _ => false
  | .alt a b => a.nullable || b.nullable
  | .cat a b => a.nullable && b.nullable
  | .star _ => true

/-- Brzozowski derivative of a regex by one character.  The dot does not
match a newline character, matching the default (non-DOTALL) Python
semantics; a negated character class does match a newline. -/
def Regex.deriv : Regex → Char → Regex
  | .fail, _ => .fail
  | .eps, _ => .fail
  | .char c, d => if c = d then .eps else .fail
  | .anyc, d => if d = '\n' then .fail else .eps
  | .cls neg cs, d => if (cs.contains d) != neg then .eps else .fail
  | .alt a b, d => .alt (a.deriv d) (b.deriv d)
  | .cat a b, d => if a.nullable then .alt (.cat (a.deriv d) b) (b.deriv d) else .cat (a.deriv d) b
  | .star r, d => .cat (r.deriv d) (.star r)

/-- The regex matches exactly the first k characters of s. -/
def matchesAt (r : Regex) (s : List Char) (k : Nat) : Bool :=
  (((s.take k).foldl Regex.deriv r)).nullable

/-- Semantics of the dollar assertion of the Python re module at position k
of string s: it holds at the end of the string, and also just before a
newline that is the last character of the string. -/
def pyDollar (s : List Char) (k : Nat) : Bool :=
  (k == s.length) || ((k + 1 == s.length) && (s.getD k ' ' == '\n'))

/-- Models checking one compiled route pattern against a path:
re.compile(pattern + "$").match(path) is not None.  re.match anchors
at the start of the string only; the appended dollar is the final
assertion of the compiled regex, so a match exists exactly when the
pattern matches some prefix of the path at whose end the dollar
assertion holds. -/
def reMatchDollar (p : Regex) (s : String) : Bool :=
  (List.range (s.data.length + 1)).any (fun k => matchesAt p s.data k && pyDollar s.data k)

/-- A pattern that is a literal string, such as the route path /foo. -/
def strLit (s : String) : Regex :=
  s.data.foldr (fun c r => .cat (.char c) r) .eps

/-- The spec-side notion used by the anchoring claim: the pattern matches
through to the very end of the path string. -/
def matchesWholePath (p : Regex) (s : String) : Bool :=
  matchesAt p s.data s.data.length

/-! ## JSON values

Python objects produced by json.loads and consumed by json.dumps.  The
array and object spines are separate mutual inductives rather than nested
lists so that all functions below are structural recursions that the
kernel evaluates directly.  Numbers are modelled as integers; float
literals are not modelled (no route, handler or claim in this repository
uses one).
-/

mutual
inductive JVal where
  | jnull
  | jbool (b : Bool)
  | jint (n : Int)
  | jstr (s : String)
  | jarr (elems : JList)
  | jobj (members : JObj)

inductive JList where
  | nil
  | cons (hd : JVal) (tl : JList)

inductive JObj where
  | onil
  | ocons (key : String) (val : JVal) (tl : JObj)
end

/-- Lowercase hexadecimal digit, as emitted by json.dumps. -/
def hexDigit (n : Nat) : Char :=
  if n < 10 then Char.ofNat (48 + n) else Char.ofNat (87 + n)

/-- Four-digit lowercase hexadecimal rendering of a code unit. -/
def hex4 (n : Nat) : List Char :=
  [hexDigit (n / 4096 % 16), hexDigit (n / 256 % 16), hexDigit (n / 16 % 16), hexDigit (n % 16)]

/-- Escaping of one character inside a JSON string as done by json.dumps
with its default ensure_ascii=True: the two-character escapes for quote,
backslash and the common control characters, a backslash-u escape for
every other character outside the printable ASCII range, and surrogate
pairs for characters beyond the basic multilingual plane. -/
def escapeChar (c : Char) : List Char :=
  if c = '"' then ['\\', '"']
  else if c = '\\' then ['\\', '\\']
  else if c = '\n' then ['\\', 'n']
  else if c = '\r' then ['\\', 'r']
  else if c = '\t' then ['\\', 't']
  else if c = '\x08' then ['\\', 'b']
  else if c = '\x0c' then ['\\', 'f']
  else if 32 ≤ c.toNat ∧ c.toNat ≤ 126 then [c]
  else if c.toNat < 65536 then '\\' :: 'u' :: hex4 c.toNat
  else
    let v := c.toNat - 65536
    ('\\' :: 'u' :: hex4 (55296 + v / 1024)) ++ ('\\' :: 'u' :: hex4 (56320 + v % 1024))

/-- JSON string literal with its surrounding quotes, as json.dumps emits it. -/
def quoteJStr (s : String) : String :=
  "\"" ++ String.mk (s.data.foldr (fun c r => escapeChar c ++ r) []) ++ "\""

mutual
/-- json.dumps with default arguments: item separator comma-space, key
separator colon-space, ensure_ascii escaping. -/
def dumps : JVal → String
  | .jnull => "null"
  | .jbool true => "true"
  | .jbool false => "false"
  | .jint n => toString n
  | .jstr s => quoteJStr s
  | .jarr es => "[" ++ dumpsList es ++ "]"
  | .jobj ms => "\x7b" ++ dumpsObj ms ++ "\x7d"

def dumpsList : JList → String
  | .nil => ""
  | .cons v .nil => dumps v
  | .cons v (.cons w tl) => dumps v ++ ", " ++ dumpsList (.cons w tl)

def dumpsObj : JObj → String
  | .onil => ""
  | .ocons k v .onil => quoteJStr k ++ ": " ++ dumps v
  | .ocons k v tl => quoteJStr k ++ ": " ++ dumps v ++ ", " ++ dumpsObj tl
end

/-! ## A small JSON reader

Models json.loads as used on request bodies: on success the structured
value, on any decode failure (including trailing data) failure, which the
caller turns into the raw-string fallback.  Astral-plane surrogate pairs
in backslash-u escapes are not recombined and float literals are rejected;
no claim depends on either corner.
-/

/-- Value of a hexadecimal digit character. -/
def jHexVal (c : Char) : Option Nat :=
  if 48 ≤ c.toNat ∧ c.toNat ≤ 57 then some (c.toNat - 48)
  else if 97 ≤ c.toNat ∧ c.toNat ≤ 102 then some (c.toNat - 87)
  else if 65 ≤ c.toNat ∧ c.toNat ≤ 70 then some (c.toNat - 55)
  else none

/-- Skip JSON whitespace. -/
def skipWs : List Char → List Char
  | [] => []
  | c :: rest => if c = ' ' ∨ c = '\t' ∨ c = '\n' ∨ c = '\r' then skipWs rest else c :: rest

/-- Read the inside of a JSON string literal up to the closing quote. -/
def parseJStr (fuel : Nat) (cs : List Char) (acc : List Char) : Option (String × List Char) :=
  match fuel, cs with
  | 0, _ => none
  | _, [] => none
  | f + 1, c :: rest =>
    if c = '"' then some (String.mk acc.reverse, rest)
    else if c = '\\' then
      match rest with
      | [] => none
      | e :: rest2 =>
        if e = '"' then parseJStr f rest2 ('"' :: acc)
        else if e = '\\' then parseJStr f rest2 ('\\' :: acc)
        else if e = '/' then parseJStr f rest2 ('/' :: acc)
        else if e = 'n' then parseJStr f rest2 ('\n' :: acc)
        else if e = 't' then parseJStr f rest2 ('\t' :: acc)
        else if e = 'r' then parseJStr f rest2 ('\r' :: acc)
        else if e = 'b' then parseJStr f rest2 ('\x08' :: acc)
        else if e = 'f' then parseJStr f rest2 ('\x0c' :: acc)
        else if e = 'u' then
          match rest2 with
          | h1 :: h2 :: h3 :: h4 :: rest3 =>
            match jHexVal h1, jHexVal h2, jHexVal h3, jHexVal h4 with
            | some a, some b, some c2, some d =>
              parseJStr f rest3 (Char.ofNat (a * 4096 + b * 256 + c2 * 16 + d) :: acc)
            | _, _, _, _ => none
          | _ => none
        else none
    else if c.toNat < 32 then none
    else parseJStr f rest (c :: acc)

/-- Read a run of decimal digits. -/
def parseJNat : List Char → Nat → Bool → Option (Nat × List Char)
  | c :: rest, acc, seen =>
    if 48 ≤ c.toNat ∧ c.toNat ≤ 57 then parseJNat rest (acc * 10 + (c.toNat - 48)) true
    else if seen then some (acc, c :: rest) else none
  | [], acc, seen => if seen then some (acc, []) else none

/-- After an integer literal a dot or an exponent marker would make it a
float, which this model rejects. -/
def floatFollows (cs : List Char) : Bool :=
  cs.headD ' ' = '.' || cs.headD ' ' = 'e' || cs.headD ' ' = 'E'

mutual
def parseJVal (fuel : Nat) (cs : List Char) : Option (JVal × List Char) :=
  match fuel with
  | 0 => none
  | f + 1 =>
    match skipWs cs with
    | [] => none
    | c :: rest =>
      if c = 'n' then
        match rest with
        | 'u' :: 'l' :: 'l' :: r => some (.jnull, r)
        | _ => none
      else if c = 't' then
        match rest with
        | 'r' :: 'u' :: 'e' :: r => some (.jbool true, r)
        | _ => none
      else if c = 'f' then
        match rest with
        | 'a' :: 'l' :: 's' :: 'e' :: r => some (.jbool false, r)
        | _ => none
      else if c = '"' then
        match parseJStr (rest.length + 1) rest [] with
        | some (s, r) => some (.jstr s, r)
        | none => none
      else if c = '[' then
        match skipWs rest with
        | ']' :: r2 => some (.jarr .nil, r2)
        | r2 => parseJArr f r2
      else if c = Char.ofNat 123 then
        match skipWs rest with
        | r2 =>
          if r2.headD ' ' = Char.ofNat 125 then some (.jobj .onil, r2.tail)
          else parseJObj f r2
      else if c = '-' then
        match parseJNat rest 0 false with
        | some (n, r2) => if floatFollows r2 then none else some (.jint (-(Int.ofNat n)), r2)
        | none => none
      else
        match parseJNat (c :: rest) 0 false with
        | some (n, r2) => if floatFollows r2 then none else some (.jint (Int.ofNat n), r2)
        | none => none

def parseJArr (fuel : Nat) (cs : List Char) : Option (JVal × List Char) :=
  match fuel with
  | 0 => none
  | f + 1 =>
    match parseJVal f cs with
    | none => none
    | some (v, rest) =>
      match skipWs rest with
      | ',' :: r2 =>
        match parseJArr f r2 with
        | some (.jarr tl, r3) => some (.jarr (.cons v tl), r3)
        | _ => none
      | ']' :: r2 => some (.jarr (.cons v .nil), r2)
      | _ => none

def parseJObj (fuel : Nat) (cs : List Char) : Option (JVal × List Char) :=
  match fuel with
  | 0 => none
  | f + 1 =>
    match skipWs cs with
    | '"' :: rest =>
      match parseJStr (rest.length + 1) rest [] with
      | none => none
      | some (k, r2) =>
        match skipWs r2 with
        | ':' :: r3 =>
          match parseJVal f r3 with
          | none => none
          | some (v, r4) =>
            match skipWs r4 with
            | ',' :: r5 =>
              match parseJObj f r5 with
              | some (.jobj tl, r6) => some (.jobj (.ocons k v tl), r6)
              | _ => none
            | r5 =>
              if r5.headD ' ' = Char.ofNat 125 then some (.jobj (.ocons k v .onil), r5.tail)
              else none
        | _ => none
    | _ => none
end

/-- Models json.loads: none on any decode failure.  The fuel is an upper
bound on nesting depth; every level of nesting consumes at least one input
character, so input length plus two suffices. -/
def jsonLoads (s : String) : Option JVal :=
  match parseJVal (s.data.length + 2) s.data with
  | some (v, rest) => if skipWs rest = [] then some v else none
  | none => none

/-! ## Python string primitives used by the engine -/

/-- Worker for pySplit; the fuel starts at input length plus one and every
step consumes at least one character of the input. -/
def pySplitGo (sep : List Char) : Nat → List Char → List Char → List (List Char)
  | 0, _, acc => [acc.reverse]
  | _ + 1, [], acc => [acc.reverse]
  | f + 1, c :: rest, acc =>
    if sep.isPrefixOf (c :: rest) then
      acc.reverse :: pySplitGo sep f (List.drop sep.length (c :: rest)) []
    else
      pySplitGo sep f rest (c :: acc)

/-- Models the split method of Python strings with a nonempty separator:
every occurrence of the separator ends a field, adjacent separators give
empty fields, and the empty string splits into one empty field. -/
def pySplit (s : String) (sep : String) : List String :=
  (pySplitGo sep.data (s.data.length + 1) s.data []).map String.mk

/-- Models the find method of Python strings for a single character:
the first index of the character, or minus one when absent. -/
def pyFind (s : String) (c : Char) : Int :=
  match s.data.findIdx? (fun d => d = c) with
  | some i => Int.ofNat i
  | none => -1

/-- Python slice s[:j], including the negative-index convention that counts
from the end of the string (clamped at zero). -/
def pySliceTo (s : String) (j : Int) : String :=
  if j < 0 then String.mk (s.data.take (s.data.length - (-j).toNat))
  else String.mk (s.data.take j.toNat)

/-- Python slice s[i:], including the negative-index convention. -/
def pySliceFrom (s : String) (i : Int) : String :=
  if i < 0 then String.mk (s.data.drop (s.data.length - (-i).toNat))
  else String.mk (s.data.drop i.toNat)

/-- Insertion into a Python dict: overwriting an existing key keeps its
position, a new key is appended (insertion order preserved). -/
def dictSet (m : List (String × String)) (k v : String) : List (String × String) :=
  if m.any (fun kv => kv.1 == k) then
    m.map (fun kv => if kv.1 == k then (k, v) else kv)
  else m ++ [(k, v)]

/-- Models urllib.parse.urlparse restricted to the origin-form request
targets this framework receives (a path, optionally followed by a query
and a fragment; scheme and netloc handling are not exercised).  Returns
the path and query components: ASCII tab, carriage return and newline are
removed as unsafe characters, the fragment starts at the first hash mark,
and the query starts at the first question mark before the fragment. -/
def pyUrlparse (url : String) : String × String :=
  let u := url.data.filter (fun c => ¬(c = '\t' ∨ c = '\r' ∨ c = '\n'))
  let noFrag := u.takeWhile (fun c => c ≠ '#')
  let path := noFrag.takeWhile (fun c => c ≠ '?')
  let query := (noFrag.dropWhile (fun c => c ≠ '?')).drop 1
  (String.mk path, String.mk query)

/-- Append a query-parameter value under its key, grouping as
urllib.parse.parse_qs does: first occurrence fixes the position of the
key, later values are appended to its list. -/
def qsAppend (m : List (String × List String)) (k v : String) : List (String × List String) :=
  if m.any (fun kv => kv.1 == k) then
    m.map (fun kv => if kv.1 == k then (kv.1, kv.2 ++ [v]) else kv)
  else m ++ [(k, [v])]

/-- Models urllib.parse.parse_qs with default arguments: fields split on
ampersands, fields without an equals sign or with an empty value dropped,
values grouped per key in order.  Percent- and plus-decoding of the
standard library are not modelled; no claim inspects decoded values. -/
def parse_qs (query : String) : List (String × List String) :=
  (pySplit query "&").foldl
    (fun m field =>
      if field.data.contains '=' then
        let k := String.mk (field.data.takeWhile (fun c => c ≠ '='))
        let v := String.mk ((field.data.dropWhile (fun c => c ≠ '=')).drop 1)
        if v = "" then m else qsAppend m k v
      else m)
    []

/-! ## Data model of the engine -/

/-- A Python value as it appears in a request or response body slot:
either a str (which build_response emits verbatim) or a structured value
(which build_response passes through json.dumps).  A structured value
materialized by json.loads, including a bare JSON string, is a vjson. -/
inductive PyVal where
  | vstr (s : String)
  | vjson (v : JVal)

/-- The Request dataclass: method, headers (uppercased keys, last write
wins), path, query parameters and body. -/
structure Request where
  method : String
  headers : List (String × String)
  path : String
  query_params : List (String × List String)
  body : PyVal

/-- The Response dataclass: body, status_code (default 200), content_type
(default text/html). -/
structure Response where
  body : PyVal
  status_code : Nat := 200
  content_type : String := "text/html"

/-- Failures raised inside the engine: the ValueError of tuple unpacking
on the request line, the UnboundLocalError of reading a never-assigned
local, and an arbitrary unexpected failure raised by a handler. -/
inductive PyErr where
  | valueError
  | unboundLocal
  | pyExc (msg : String)
deriving DecidableEq, Repr

/-- What invoking a handler can do: return a Response, raise an
ApiException (which structurally is a Response), or raise any other
unexpected failure. -/
inductive HandlerResult where
  | ret (r : Response)
  | raiseApi (r : Response)
  | raiseExc (e : PyErr)

abbrev Handler := Request → HandlerResult

/-- One entry of the route table: a pattern compiled at registration
(matched with the trailing dollar semantics of reMatchDollar) and the
handler. -/
abbrev RouteTable := List (Regex × Handler)

/-- The generic fault Response constructed in the bare except branch:
Response with the fixed JSON-like body, status 500, and the content_type
field left at its dataclass default. -/
def fault500 : Response :=
  ⟨.vjson (.jobj (.ocons "msg" (.jstr "500 - server error") .onil)), 500, "text/html"⟩

/-! ## Wire codec -/

/-- Line 53 of most_minimal_web_framework.py: the tuple unpacking of
line zero split on single spaces.  Python unpacking into three names
raises ValueError both when there are too few values and when there are
too many. -/
def parseRequestLine (l : String) : Except PyErr (String × String × String) :=
  match pySplit l " " with
  | [m, u, v] => .ok (m, u, v)
  | _ => .error .valueError

/-- The header loop of the request parsing method: walks the lines after
the request line carrying the running index into the full line list; an
empty line switches to the body (json.loads of the concatenation of all
later lines, falling back to the raw text) and stops; any other line is
split at the first colon, the key uppercased and the value taken from two
characters past the colon (the exact slicing conventions of the source,
including the find result minus one when no colon is present).  Returns
the headers and the body when one was assigned; when the loop finishes
without seeing an empty line the body local is never assigned. -/
def headerLoop (allLines : List String) :
    List String → Nat → List (String × String) → List (String × String) × Option PyVal
  | [], _, hs => (hs, none)
  | l :: rest, i, hs =>
    if l = "" then
      let joined := String.join (allLines.drop (i + 1))
      let body := match jsonLoads joined with
        | some v => PyVal.vjson v
        | none => PyVal.vstr joined
      (hs, some body)
    else
      let j := pyFind l ':'
      headerLoop allLines rest (i + 1)
        (dictSet hs (pySliceTo l j).toUpper (pySliceFrom l (j + 2)))

/-- The request parsing method shared (line for line) by both variants:
split the raw text on CRLF, unpack the request line, run the header loop,
then build the Request from the urlparse components.  Reading the body
local that the loop never assigned raises UnboundLocalError at the
Request construction. -/
def requestParser (request_str : String) : Except PyErr Request :=
  let request_lines := pySplit request_str "\r\n"
  match parseRequestLine (request_lines.headD "") with
  | .error e => .error e
  | .ok (method, url, _) =>
    match headerLoop request_lines (request_lines.drop 1) 1 [] with
    | (_, none) => .error .unboundLocal
    | (headers, some body) =>
      let pq := pyUrlparse url
      .ok ⟨method, headers, pq.1, parse_qs pq.2, body⟩

/-- The body text passed to the serializer: emitted verbatim when it is a
str, otherwise its json.dumps rendering. -/
def encodeBody : PyVal → String
  | .vstr s => s
  | .vjson v => dumps v

/-- Byte length of the UTF-8 encoding of a string, len of the encode
method result in Python. -/
def utf8Len (s : String) : Nat :=
  s.data.foldl (fun n c => n + c.utf8Size) 0

/-- build_response of most_minimal_web_framework.py (sequential variant):
the Content-Length field is len(body), the character count of the body
text. -/
def build_response_sync (r : Response) : String :=
  "HTTP/1.1 " ++ toString r.status_code ++ "\r\nContent-Type: " ++ r.content_type ++
  "; charset=utf-8\r\nContent-Length: " ++ toString (encodeBody r.body).length ++
  "\r\nConnection: close\r\n\r\n" ++ encodeBody r.body

/-- build_response of MostMinimalWebFramework.py (coroutine variant): the
Content-Length field is the byte length of the UTF-8 encoding of the body
text. -/
def build_response_async (r : Response) : String :=
  "HTTP/1.1 " ++ toString r.status_code ++ "\r\nContent-Type: " ++ r.content_type ++
  "; charset=utf-8\r\nContent-Length: " ++ toString (utf8Len (encodeBody r.body)) ++
  "\r\nConnection: close\r\n\r\n" ++ encodeBody r.body

/-! ## Route table and dispatch -/

/-- get_route_function: scan the route table in order and take the handler
of the first entry whose compiled pattern matches the path.  The
StopIteration that next raises on an empty iterator is modelled as none;
at the call site it falls into the bare except branch of the dispatcher
(StopIteration subclasses Exception). -/
def get_route_function (table : RouteTable) (path : String) : Option Handler :=
  (table.find? (fun e => reMatchDollar e.1 path)).map (fun e => e.2)

/-- The try block shared by both connection drivers: parse the request,
look up the handler, invoke it; an ApiException becomes the response
verbatim, any other failure (parse failure, StopIteration from the route
lookup, unexpected handler failure) becomes the generic fault response. -/
def computeResponse (table : RouteTable) (request : String) : Response :=
  match requestParser request with
  | .error _ => fault500
  | .ok req =>
    match get_route_function table req.path with
    | none => fault500
    | some h =>
      match h req with
      | .ret r => r
      | .raiseApi r => r
      | .raiseExc _ => fault500

/-- handle_request of the coroutine variant, per accepted connection:
after the try block the log line reads parsed_req, a local that was never
assigned when parsing failed, so a parse failure raises UnboundLocalError
outside the try and the connection is closed without any bytes written;
otherwise the serialized response is written.  The result is the wire
text written to the client, or the failure that escaped the handler. -/
def handle_request (table : RouteTable) (request : String) : Except PyErr String :=
  match requestParser request with
  | .ok _ => .ok (build_response_async (computeResponse table request))
  | .error _ => .error .unboundLocal

/-- The accept loop of run in the sequential variant, over the sequence of
request texts of the accepted connections.  parsed_req is a local of run
and persists across iterations, so after a parse failure the log line
reads the value left over from the last successfully parsed connection;
if there is none, the UnboundLocalError escapes the loop and run
terminates.  Returns the wire texts written, and the failure that ended
the loop if one did. -/
def run_loop (table : RouteTable) :
    Option Request → List String → List String × Option PyErr
  | _, [] => ([], none)
  | parsed, request :: rest =>
    let parsed' := match requestParser request with
      | .ok r => some r
      | .error _ => parsed
    let response := computeResponse table request
    match parsed' with
    | none => ([], some .unboundLocal)
    | some _ =>
      let out := run_loop table parsed' rest
      (build_response_sync response :: out.1, out.2)

/-! ## Class-level route table state

route_table is declared as a class attribute of MostMinimalWebFramework
and the route decorator runs self.route_table.append: attribute lookup on
the instance finds no instance attribute and falls back to the class
attribute, and append mutates that single shared list in place.  Hence
every registration, through whichever instance, extends the one
class-level list, in the order the append calls run. -/

/-- The class-level state: the single shared route table. -/
structure PyClassState where
  route_table : RouteTable

/-- One registration event: which instance the route decorator was called
through, and the pattern and handler registered. -/
structure RegEvent where
  instanceId : Nat
  pattern : Regex
  handler : Handler

/-- The route decorator: appends the compiled pattern and the handler to
the class-level table.  The instance the call goes through does not
influence which list is extended. -/
def routeRegister (st : PyClassState) (_inst : Nat) (p : Regex) (h : Handler) : PyClassState :=
  ⟨st.route_table ++ [(p, h)]⟩

/-- Run a sequence of registration events, from any mix of instances, in
program order, starting from the empty class-level table. -/
def runRegistrations (evs : List RegEvent) : PyClassState :=
  evs.foldl (fun st e => routeRegister st e.instanceId e.pattern e.handler) ⟨[]⟩

/-- Route resolution as seen through one particular instance: attribute
lookup falls back to the class attribute, so the instance is irrelevant. -/
def get_route_function_via (_inst : Nat) (st : PyClassState) (path : String) : Option Handler :=
  get_route_function st.route_table path

/-! ## Concrete fixtures used by witnesses and counterexamples -/

/-- A handler that returns a plain response. -/
def hA : Handler := fun _ => .ret ⟨.vstr "A", 200, "text/html"⟩

/-- A second plain handler, distinguishable from hA by its body. -/
def hB : Handler := fun _ => .ret ⟨.vstr "B", 200, "text/html"⟩

/-- A third plain handler. -/
def hC : Handler := fun _ => .ret ⟨.vstr "C", 200, "text/html"⟩

/-- A handler that raises an unexpected failure, like the KeyError behind
the body-handle route of the examples. -/
def hBoom : Handler := fun _ => .raiseExc (.pyExc "boom")

/-- The ApiException of the body-handle example route: status 400, JSON
body, content_type left at the dataclass default of Response. -/
def apiError400 : Response :=
  ⟨.vjson (.jobj (.ocons "msg" (.jstr "name field required") .onil)), 400, "text/html"⟩

/-- A handler that raises apiError400 as an ApiException. -/
def hRaise : Handler := fun _ => .raiseApi apiError400

/-- The catch-all wildcard pattern dot-star of the examples. -/
def wildcard : Regex := .star .anyc

/-- A well-formed request for the path /x. -/
def reqX : String := "GET /x HTTP/1.1\r\n\r\n"

/-- A well-formed request for a path no route of fooTable matches. -/
def reqNoRoute : String := "GET /unregistered-path HTTP/1.1\r\n\r\n"

/-- A well-formed request for the raise-exception route. -/
def reqRaise : String := "GET /raise-exception/ HTTP/1.1\r\n\r\n"

/-- A route table whose only route is the literal path /foo (no wildcard
fallback). -/
def fooTable : RouteTable := [(strLit "/foo", hA)]

/-- A route table whose only handler raises an unexpected failure on any
request. -/
def boomTable : RouteTable := [(wildcard, hBoom)]

/-- A route table with the raise-exception route only. -/
def raiseTable : RouteTable := [(strLit "/raise-exception/", hRaise)]

/-! ## Helper lemmas -/

/-- When every line after the request line is nonempty, the header loop
runs to the end of the lines without ever assigning the body. -/
theorem headerLoop_body_none (allLines : List String) :
    ∀ (ls : List String) (i : Nat) (hs : List (String × String)),
      (∀ l ∈ ls, l ≠ "") → (headerLoop allLines ls i hs).2 = none := by
  intro ls
  induction ls with
  | nil => intro i hs _; rfl
  | cons l rest ih =>
    intro i hs hne
    have hl : l ≠ "" := hne l (by simp)
    simp only [headerLoop, if_neg hl]
    exact ih _ _ (fun x hx => hne x (by simp [hx]))

/-- A request line splitting into exactly three tokens unpacks
successfully. -/
theorem parseRequestLine_len3 (l : String) (h : (pySplit l " ").length = 3) :
    ∃ t, parseRequestLine l = .ok t := by
  rcases hsp : pySplit l " " with _ | ⟨m, _ | ⟨u, _ | ⟨v, _ | ⟨d, tl⟩⟩⟩⟩
  · simp [hsp] at h
  · simp [hsp] at h
  · simp [hsp] at h
  · exact ⟨(m, u, v), by simp [parseRequestLine, hsp]⟩
  · simp [hsp] at h

/-! ## Claim theorems -/

/-- C1 (code bug): a failure during parsing is caught by the bare except
and turned into the 500 fault response, but the log statement after the
try block reads the parsed_req local, which a parse failure leaves
unassigned; the resulting UnboundLocalError escapes, so the connection is
closed with no bytes written, and in the sequential variant the accept
loop itself terminates.  Evaluated at the failing input: the empty
request text as the first accepted connection. -/
theorem c1_parse_failure_kills_connection :
    computeResponse [] "" = fault500 ∧
    run_loop [] none [""] = ([], some .unboundLocal) ∧
    handle_request [] "" = .error .unboundLocal :=
  ⟨rfl, rfl, rfl⟩

/-- C2 (amended): whenever a handler raises any unexpected failure that is
not an ApiException, dispatch produces the generic fault Response with
status code 500 and the fixed body, served with content-type text/html
(the Response dataclass default), and the failure detail never appears in
the client-visible response: the produced response and its serialization
are one fixed value, independent of the failure. -/
theorem c2_unexpected_failure_yields_fault (table : RouteTable) (request : String)
    (req : Request) (h : Handler) (e : PyErr)
    (hparse : requestParser request = .ok req)
    (hroute : get_route_function table req.path = some h)
    (hexc : h req = .raiseExc e) :
    computeResponse table request = fault500 ∧
    fault500.status_code = 500 ∧
    encodeBody fault500.body = "\x7b\"msg\": \"500 - server error\"\x7d" ∧
    fault500.content_type = "text/html" ∧
    build_response_async fault500 =
      "HTTP/1.1 500\r\nContent-Type: text/html; charset=utf-8\r\nContent-Length: 29\r\nConnection: close\r\n\r\n\x7b\"msg\": \"500 - server error\"\x7d" := by
  refine ⟨?_, rfl, rfl, rfl, rfl⟩
  simp [computeResponse, hparse, hroute, hexc]

/-- C2 counterexample: with a handler raising an unexpected failure, the
fault response dispatch produces carries content-type text/html, not the
application/json the claim states. -/
theorem c2_fault_content_type_counterexample :
    (computeResponse boomTable reqX).status_code = 500 ∧
    (computeResponse boomTable reqX).content_type = "text/html" ∧
    "text/html" ≠ "application/json" :=
  ⟨rfl, rfl, by decide⟩

/-- C2 witness: the general theorem applied to a concrete table, request
and failure. -/
theorem c2_witness :
    computeResponse boomTable reqX = fault500 ∧
    fault500.status_code = 500 ∧
    encodeBody fault500.body = "\x7b\"msg\": \"500 - server error\"\x7d" ∧
    fault500.content_type = "text/html" ∧
    build_response_async fault500 =
      "HTTP/1.1 500\r\nContent-Type: text/html; charset=utf-8\r\nContent-Length: 29\r\nConnection: close\r\n\r\n\x7b\"msg\": \"500 - server error\"\x7d" :=
  c2_unexpected_failure_yields_fault boomTable reqX ⟨"GET", [], "/x", [], .vstr ""⟩
    hBoom (.pyExc "boom") rfl rfl rfl

/-- C3 (code bug): the sequential-variant serializer emits len(body), the
character count, as Content-Length; for the one-character body with a
two-byte UTF-8 encoding it declares 1 where the byte length is 2.  The
coroutine variant computes the byte length and declares 2 for the same
response. -/
theorem c3_sync_content_length_is_char_count :
    build_response_sync ⟨.vstr "é", 200, "text/html"⟩ =
      "HTTP/1.1 200\r\nContent-Type: text/html; charset=utf-8\r\nContent-Length: 1\r\nConnection: close\r\n\r\né" ∧
    (encodeBody (PyVal.vstr "é")).length = 1 ∧
    utf8Len "é" = 2 ∧
    build_response_async ⟨.vstr "é", 200, "text/html"⟩ =
      "HTTP/1.1 200\r\nContent-Type: text/html; charset=utf-8\r\nContent-Length: 2\r\nConnection: close\r\n\r\né" :=
  ⟨rfl, rfl, rfl, rfl⟩

/-- C4: for every route table and every path, route resolution returns the
handler of the first entry in registration order whose pattern matches the
path, whatever the entries after it match. -/
theorem c4_first_match_wins (pre post : RouteTable) (p : Regex) (h : Handler) (path : String)
    (hpre : ∀ e ∈ pre, reMatchDollar e.1 path = false)
    (hp : reMatchDollar p path = true) :
    get_route_function (pre ++ (p, h) :: post) path = some h := by
  induction pre with
  | nil => simp [get_route_function, List.find?_cons_of_pos, hp]
  | cons a pre ih =>
    have ha : reMatchDollar a.1 path = false := hpre a (by simp)
    simp only [List.cons_append, get_route_function, List.find?_cons_of_neg, ha,
      Bool.false_eq_true, not_false_iff]
    exact ih (fun x hx => hpre x (by simp [hx]))

/-- C4 witness: the wildcard entry registered second wins over the
identical wildcard registered third, while the non-matching literal route
registered first is skipped. -/
theorem c4_witness :
    get_route_function ([(strLit "/a", hA)] ++ (wildcard, hB) :: [(wildcard, hC)]) "/b" = some hB ∧
    reMatchDollar wildcard "/b" = true :=
  ⟨c4_first_match_wins [(strLit "/a", hA)] [(wildcard, hC)] wildcard hB "/b"
    (by decide) (by decide), by decide⟩

/-- C5 (amended): every pattern is compiled once at registration with a
trailing dollar anchor, so a registered pattern matches a path exactly
when it matches through to the end of the path string, or when the last
character of the path is a newline and the pattern matches through to
just before it (the dollar of the Python re module also asserts before a
single trailing newline); in particular a route registered for /foo does
not match the path /foo/bar. -/
theorem c5_anchored_match_characterization :
    (∀ (p : Regex) (s : String),
      reMatchDollar p s = true ↔
        (matchesWholePath p s = true ∨
         (0 < s.data.length ∧ s.data.getD (s.data.length - 1) ' ' = '\n' ∧
          matchesAt p s.data (s.data.length - 1) = true))) ∧
    reMatchDollar (strLit "/foo") "/foo/bar" = false := by
  constructor
  · intro p s
    unfold reMatchDollar matchesWholePath pyDollar
    rw [List.any_eq_true]
    constructor
    · rintro ⟨k, hk, hb⟩
      rw [List.mem_range] at hk
      rw [Bool.and_eq_true, Bool.or_eq_true] at hb
      obtain ⟨hm, hd | hd⟩ := hb
      · left
        have hkl : k = s.data.length := by simpa using hd
        rwa [← hkl]
      · right
        rw [Bool.and_eq_true] at hd
        have h1 : k + 1 = s.data.length := by simpa using hd.1
        have h2 : s.data.getD k ' ' = '\n' := by simpa using hd.2
        refine ⟨by omega, ?_, ?_⟩
        · rw [show s.data.length - 1 = k by omega]; exact h2
        · rw [show s.data.length - 1 = k by omega]; exact hm
    · rintro (hwhole | ⟨hpos, hnl, hm⟩)
      · refine ⟨s.data.length, by simp [List.mem_range], ?_⟩
        rw [Bool.and_eq_true]
        exact ⟨hwhole, by simp⟩
      · refine ⟨s.data.length - 1, by rw [List.mem_range]; omega, ?_⟩
        rw [Bool.and_eq_true]
        refine ⟨hm, ?_⟩
        rw [Bool.or_eq_true, Bool.and_eq_true]
        right
        constructor
        · have hsp : s.data.length - 1 + 1 = s.data.length := Nat.succ_pred_eq_of_pos hpos
          rw [hsp]
          simp
        · simpa using hnl
  · decide

/-- C5 counterexample: the pattern /foo, compiled with its dollar anchor,
matches the path consisting of /foo followed by a newline, yet does not
match through to the end of that path string. -/
theorem c5_trailing_newline_counterexample :
    reMatchDollar (strLit "/foo") "/foo\n" = true ∧
    matchesWholePath (strLit "/foo") "/foo\n" = false := by
  decide

/-- C6 (amended): parsing the request line splits line zero on single
spaces and succeeds exactly when that yields three tokens; the tuple
unpacking raises ValueError both when fewer and when more than three
tokens are present. -/
theorem c6_request_line_three_tokens_iff (l : String) :
    (∃ t, parseRequestLine l = .ok t) ↔ (pySplit l " ").length = 3 := by
  constructor
  · rintro ⟨t, ht⟩
    rcases hsp : pySplit l " " with _ | ⟨m, _ | ⟨u, _ | ⟨v, _ | ⟨d, tl⟩⟩⟩⟩ <;>
      simp_all [parseRequestLine, hsp]
  · exact parseRequestLine_len3 l

/-- C6 counterexample: a first line with four space-separated tokens has
at least three tokens, yet request-line parsing fails (too many values to
unpack), and the whole request parse fails with it. -/
theorem c6_four_tokens_counterexample :
    3 ≤ (pySplit "GET /a HTTP/1.1 x" " ").length ∧
    parseRequestLine "GET /a HTTP/1.1 x" = .error .valueError ∧
    requestParser "GET /a HTTP/1.1 x\r\n\r\n" = .error .valueError :=
  ⟨by decide, rfl, rfl⟩

/-- C6 witness: a three-token request line parses successfully. -/
theorem c6_witness :
    (∃ t, parseRequestLine "GET /x HTTP/1.1" = .ok t) ∧
    (pySplit "GET /x HTTP/1.1" " ").length = 3 :=
  ⟨(c6_request_line_three_tokens_iff "GET /x HTTP/1.1").mpr (by decide), by decide⟩

/-- C7: when the handler raises an ApiException, dispatch returns exactly
that exception value as the response, with status code and body verbatim;
the serialized form of the ApiException of the body-handle example has
the status line HTTP/1.1 400 and exactly the JSON text of its body. -/
theorem c7_api_error_verbatim :
    (∀ (table : RouteTable) (request : String) (req : Request) (h : Handler) (r : Response),
      requestParser request = .ok req →
      get_route_function table req.path = some h →
      h req = .raiseApi r →
      computeResponse table request = r ∧
      handle_request table request = .ok (build_response_async r)) ∧
    build_response_sync apiError400 =
      "HTTP/1.1 400\r\nContent-Type: text/html; charset=utf-8\r\nContent-Length: 30\r\nConnection: close\r\n\r\n\x7b\"msg\": \"name field required\"\x7d" := by
  constructor
  · intro table request req h r hparse hroute hapi
    constructor
    · simp [computeResponse, hparse, hroute, hapi]
    · simp [handle_request, hparse, computeResponse, hroute, hapi]
  · rfl

/-- C7 witness: the general theorem applied to the raise-exception route. -/
theorem c7_witness :
    computeResponse raiseTable reqRaise = apiError400 ∧
    handle_request raiseTable reqRaise = .ok (build_response_async apiError400) :=
  c7_api_error_verbatim.1 raiseTable reqRaise
    ⟨"GET", [], "/raise-exception/", [], .vstr ""⟩ hRaise apiError400 rfl rfl rfl

/-- C8: when the parsed request path matches no registered pattern, the
StopIteration of the route lookup is caught by the bare except, the 500
fault response is produced and written, and neither the per-connection
handler nor the sequential accept loop crashes. -/
theorem c8_no_route_yields_500 (table : RouteTable) (request : String) (req : Request)
    (hparse : requestParser request = .ok req)
    (hnone : ∀ e ∈ table, reMatchDollar e.1 req.path = false) :
    handle_request table request = .ok (build_response_async fault500) ∧
    run_loop table none [request] = ([build_response_sync fault500], none) ∧
    fault500.status_code = 500 := by
  have hfind : table.find? (fun e => reMatchDollar e.1 req.path) = none :=
    List.find?_eq_none.mpr (fun x hx => by simp [hnone x hx])
  have hroute : get_route_function table req.path = none := by
    simp [get_route_function, hfind]
  have hcr : computeResponse table request = fault500 := by
    simp [computeResponse, hparse, hroute]
  refine ⟨?_, ?_, rfl⟩
  · simp [handle_request, hparse, hcr]
  · simp [run_loop, hparse, hcr]

/-- C8 witness: the general theorem applied to a table with only a /foo
route and a request for an unregistered path. -/
theorem c8_witness :
    handle_request fooTable reqNoRoute = .ok (build_response_async fault500) ∧
    run_loop fooTable none [reqNoRoute] = ([build_response_sync fault500], none) ∧
    fault500.status_code = 500 :=
  c8_no_route_yields_500 fooTable reqNoRoute
    ⟨"GET", [], "/unregistered-path", [], .vstr ""⟩ rfl (by decide)

/-- C9: a request text with no empty line after the request line makes the
parse fail even when the request line has its three tokens and every
header line is present, because the body local is only assigned when an
empty line is reached; reading it at the Request construction raises
UnboundLocalError, which sends the connection down the fault path of the
dispatcher. -/
theorem c9_missing_blank_line_fails (request_str : String)
    (h3 : (pySplit ((pySplit request_str "\r\n").headD "") " ").length = 3)
    (hne : ∀ l ∈ (pySplit request_str "\r\n").drop 1, l ≠ "") :
    requestParser request_str = .error .unboundLocal := by
  obtain ⟨t, ht⟩ := parseRequestLine_len3 _ h3
  have hbody : (headerLoop (pySplit request_str "\r\n")
      ((pySplit request_str "\r\n").drop 1) 1 []).2 = none :=
    headerLoop_body_none _ _ _ _ hne
  have hpair : headerLoop (pySplit request_str "\r\n")
      ((pySplit request_str "\r\n").drop 1) 1 [] =
      ((headerLoop (pySplit request_str "\r\n")
        ((pySplit request_str "\r\n").drop 1) 1 []).1, none) := by
    rw [← hbody]
  obtain ⟨m, u, v⟩ := t
  simp only [requestParser, ht]
  rw [hpair]

/-- C9 witness: a request with a well-formed request line and one header
line but no blank-line separator fails to parse. -/
theorem c9_witness :
    requestParser "GET /x HTTP/1.1\r\nX-TOKEN: abc" = .error .unboundLocal :=
  c9_missing_blank_line_fails _ (by decide) (by decide)

/-- C10: the route table is class-level state shared by every instance of
the framework class: after any interleaved sequence of registrations
through any instances, route resolution through one instance equals route
resolution through any other, and the shared table lists exactly the
registered pattern-handler pairs in the order of the append calls. -/
theorem c10_shared_route_table :
    ∀ (evs : List RegEvent) (i j : Nat) (path : String),
      get_route_function_via i (runRegistrations evs) path =
        get_route_function_via j (runRegistrations evs) path ∧
      (runRegistrations evs).route_table = evs.map (fun e => (e.pattern, e.handler)) := by
  have key : ∀ (evs : List RegEvent) (st : PyClassState),
      (evs.foldl (fun st e => routeRegister st e.instanceId e.pattern e.handler) st).route_table =
        st.route_table ++ evs.map (fun e => (e.pattern, e.handler)) := by
    intro evs
    induction evs with
    | nil => intro st; simp
    | cons e tl ih =>
      intro st
      rw [List.foldl_cons, ih]
      simp [routeRegister]
  intro evs i j path
  exact ⟨rfl, by simpa using key evs ⟨[]⟩⟩
